import Mathlib

/-!
Verification of the factory-operations application (ERP / MES / MRP demo)
against its natural-language specification.

The Django models and admin actions are shallowly embedded as Lean
definitions.  Conventions used throughout:

* `DecimalField` / monetary and quantity values are modelled as exact
  rationals (`ℚ`).  The source stores fixed-precision decimals; all claims
  under consideration are about the defining formulas, which are exact.
* `DateTimeField` values are modelled as rational timestamps (seconds on an
  arbitrary epoch); nullable fields become `Option ℚ`.
* Python truthiness is translated explicitly: `None` is falsy, a numeric
  value is truthy iff it is nonzero, a non-`None` object is truthy.
* `timezone.now()` is passed in as an explicit `now` parameter.
* Django's save / signal machinery is modelled as explicit state-passing
  functions returning the updated row together with any appended log rows.
-/

/-! ## Commerce domain (erp/models.py) -/

/-- Product master data (erp/models.py, class Product).  Fields not read by
any computation under verification (name, sku, barcode, category, unit,
image, timestamps) are omitted. -/
structure Product where
  product_number : String
  price : ℚ
  cost : ℚ
  min_stock : ℚ
  max_stock : ℚ
  active : Bool
deriving DecidableEq, Repr

/-- Product.margin (erp/models.py lines 94-99):
if self.price > 0: return ((self.price - self.cost) / self.price) * 100
else return 0. -/
def Product.margin (p : Product) : ℚ :=
  if p.price > 0 then ((p.price - p.cost) / p.price) * 100 else 0

/-- Purchase order line (erp/models.py, class PurchaseOrderLine). -/
structure PurchaseOrderLine where
  quantity : ℚ
  unit_price : ℚ
  total_price : ℚ
  received_quantity : ℚ
deriving DecidableEq, Repr

/-- PurchaseOrderLine.save (erp/models.py lines 221-223):
self.total_price = self.quantity * self.unit_price, then the row is
persisted unchanged otherwise. -/
def PurchaseOrderLine.save (l : PurchaseOrderLine) : PurchaseOrderLine :=
  { l with total_price := l.quantity * l.unit_price }

/-- Sales order line (erp/models.py, class SalesOrderLine). -/
structure SalesOrderLine where
  quantity : ℚ
  unit_price : ℚ
  total_price : ℚ
  shipped_quantity : ℚ
deriving DecidableEq, Repr

/-- SalesOrderLine.save (erp/models.py lines 296-298):
self.total_price = self.quantity * self.unit_price. -/
def SalesOrderLine.save (l : SalesOrderLine) : SalesOrderLine :=
  { l with total_price := l.quantity * l.unit_price }

/-! ## Materials and inventory domain (mrp/models.py) -/

/-- Material master data (mrp/models.py, class Material); only the fields
read by the computations under verification are kept. -/
structure Material where
  material_code : String
  unit_cost : ℚ
deriving DecidableEq, Repr

/-- Inventory / stock level row (mrp/models.py, class Inventory).  The
source has two nullable foreign keys `product` and `material`. -/
structure Inventory where
  product : Option Product
  material : Option Material
  warehouse : String
  quantity_on_hand : ℚ
  quantity_reserved : ℚ
  quantity_available : ℚ
deriving DecidableEq, Repr

/-- Inventory.save (mrp/models.py lines 186-189):
self.quantity_available = self.quantity_on_hand - self.quantity_reserved,
then the row is persisted. -/
def Inventory.save (inv : Inventory) : Inventory :=
  { inv with quantity_available := inv.quantity_on_hand - inv.quantity_reserved }

/-- Inventory.is_low_stock (mrp/models.py lines 191-196):
if self.product and self.product.min_stock:
    return self.quantity_available < self.product.min_stock
return False.
Python truthiness of `self.product.min_stock` (a Decimal) means the first
branch is taken only when `min_stock` is nonzero. -/
def Inventory.is_low_stock (inv : Inventory) : Bool :=
  match inv.product with
  | some p =>
    if p.min_stock ≠ 0 then decide (inv.quantity_available < p.min_stock) else false
  | none => false

/-! ## Claims C2, C5, C8, C9 -/

/-- Claim C2 (corrected form): `is_low_stock` is true exactly when the row
references a Product whose `min_stock` is nonzero and
`quantity_available < product.min_stock`; in particular every Inventory row
that references only a Material reports false. -/
theorem low_stock_characterization (inv : Inventory) :
    inv.is_low_stock = true ↔
      ∃ p, inv.product = some p ∧ p.min_stock ≠ 0 ∧
        inv.quantity_available < p.min_stock := by
  unfold Inventory.is_low_stock
  cases hp : inv.product with
  | none => simp
  | some p =>
    by_cases hms : p.min_stock ≠ 0
    · simp [hms]
    · simp only [hms, if_false]
      simp only [not_not] at hms
      constructor
      · intro h
        exact absurd h (by simp)
      · rintro ⟨q, hq, hqms, _⟩
        exact absurd (Option.some.inj hq ▸ hms) hqms

/-- Concrete Product with `min_stock = 0`, used to refute claim C2 as
stated. -/
def product_min_stock_zero : Product :=
  { product_number := "PRD-Z", price := 10, cost := 4, min_stock := 0,
    max_stock := 0, active := true }

/-- Concrete Inventory row for `product_min_stock_zero` with negative
availability (on hand 0, reserved 5). -/
def inventory_for_zero_min_stock : Inventory :=
  { product := some product_min_stock_zero, material := none,
    warehouse := "Main", quantity_on_hand := 0, quantity_reserved := 5,
    quantity_available := -5 }

/-- Counterexample to claim C2 as stated: this row references a Product and
has `quantity_available < product.min_stock` (namely -5 < 0), so the claim
predicts `is_low_stock = true`, yet the code returns false because
`min_stock` is zero and hence falsy. -/
theorem low_stock_zero_min_stock_counterexample :
    inventory_for_zero_min_stock.product = some product_min_stock_zero ∧
    inventory_for_zero_min_stock.quantity_available <
      product_min_stock_zero.min_stock ∧
    inventory_for_zero_min_stock.is_low_stock = false := by
  refine ⟨rfl, by norm_num [inventory_for_zero_min_stock, product_min_stock_zero], rfl⟩

/-- Claim C5: after any save, an Inventory row's `quantity_available`
equals `quantity_on_hand - quantity_reserved`, whatever value the field
held before the save. -/
theorem inventory_save_available_invariant (inv : Inventory) :
    inv.save.quantity_available = inv.quantity_on_hand - inv.quantity_reserved := rfl

/-- Claim C8: both order-line kinds recompute
`total_price = quantity × unit_price` on every save, from the current field
values. -/
theorem order_line_total_recomputed (pl : PurchaseOrderLine) (sl : SalesOrderLine) :
    pl.save.total_price = pl.quantity * pl.unit_price ∧
    sl.save.total_price = sl.quantity * sl.unit_price := ⟨rfl, rfl⟩

/-- Claim C9: margin is `(price − cost) / price × 100` when price is
positive and 0 when price is zero or negative, regardless of cost. -/
theorem margin_formula (p : Product) :
    (0 < p.price → p.margin = (p.price - p.cost) / p.price * 100) ∧
    (p.price ≤ 0 → p.margin = 0) := by
  constructor
  · intro h
    simp [Product.margin, h]
  · intro h
    simp [Product.margin, not_lt.mpr h]

/-- Witness for claim C9 at the spec's own example Product(price=150,
cost=80), whose margin is 140/3 = 46.67 to two decimals, and at a
zero-price product. -/
theorem margin_formula_witness :
    Product.margin
      { product_number := "P1", price := 150, cost := 80, min_stock := 0,
        max_stock := 0, active := true } = 140 / 3 ∧
    Product.margin
      { product_number := "P2", price := 0, cost := 80, min_stock := 0,
        max_stock := 0, active := true } = 0 := by
  constructor
  · rw [(margin_formula _).1 (by norm_num)]
    norm_num
  · exact (margin_formula _).2 (by norm_num)

/-! ## BOM (mrp/models.py, classes BOM and BOMLine) -/

/-- BOM line item (mrp/models.py, class BOMLine).  The source carries two
nullable foreign keys `material` and `component`; exactly one is meant to
be set (spec 3.4). -/
structure BOMLine where
  line_number : ℕ
  material : Option Material
  component : Option Product
  quantity : ℚ
  scrap_factor : ℚ
deriving DecidableEq, Repr

/-- BOMLine.adjusted_quantity (mrp/models.py lines 141-144):
quantity * (1 + scrap_factor / 100). -/
def BOMLine.adjusted_quantity (l : BOMLine) : ℚ :=
  l.quantity * (1 + l.scrap_factor / 100)

/-- Bill of materials header (mrp/models.py, class BOM) with its related
lines (`self.lines.all()`). -/
structure BOM where
  bom_number : String
  product : Product
  version : String
  active : Bool
  lines : List BOMLine
deriving DecidableEq, Repr

/-- The accumulation loop of BOM.total_cost (mrp/models.py lines 83-92):
total = 0; for line in lines: if line.material: total += quantity *
material.unit_cost; elif line.component: total += quantity *
component.cost. -/
def bom_cost_loop : ℚ → List BOMLine → ℚ
  | total, [] => total
  | total, line :: rest =>
    match line.material with
    | some m => bom_cost_loop (total + line.quantity * m.unit_cost) rest
    | none =>
      match line.component with
      | some c => bom_cost_loop (total + line.quantity * c.cost) rest
      | none => bom_cost_loop total rest

/-- BOM.total_cost as implemented (mrp/models.py lines 83-92). -/
def BOM.total_cost (b : BOM) : ℚ := bom_cost_loop 0 b.lines

/-- Total BOM cost as the spec words it (spec 4.5): the sum over the lines
of `quantity × material.unit_cost` for lines referencing a Material and
`quantity × component.cost` for lines referencing a component Product,
using the raw line quantity. -/
def BOM.spec_total_cost (b : BOM) : ℚ :=
  (b.lines.map fun line =>
    (match line.material with
     | some m => line.quantity * m.unit_cost
     | none => 0) +
    match line.component with
    | some c => line.quantity * c.cost
    | none => 0).sum

/-- The implementation loop of `BOM.total_cost` computes the spec's sum,
for any list of lines each carrying exactly one of material / component. -/
theorem bom_cost_loop_eq_sum (l : List BOMLine) (t : ℚ)
    (h : ∀ line ∈ l, line.material.isSome ≠ line.component.isSome) :
    bom_cost_loop t l = t + (l.map fun line =>
      (match line.material with
       | some m => line.quantity * m.unit_cost
       | none => 0) +
      match line.component with
      | some c => line.quantity * c.cost
      | none => 0).sum := by
  induction l generalizing t with
  | nil => simp [bom_cost_loop]
  | cons line rest ih =>
    have hline := h line (List.mem_cons_self line rest)
    have hrest : ∀ x ∈ rest, x.material.isSome ≠ x.component.isSome :=
      fun x hx => h x (List.mem_cons_of_mem line hx)
    cases hm : line.material with
    | some m =>
      have hc : line.component = none := by
        cases hcc : line.component with
        | none => rfl
        | some c => simp [hm, hcc] at hline
      simp only [bom_cost_loop, hm, hc, List.map_cons, List.sum_cons]
      rw [ih _ hrest]
      ring
    | none =>
      cases hc : line.component with
      | some c =>
        simp only [bom_cost_loop, hm, hc, List.map_cons, List.sum_cons]
        rw [ih _ hrest]
        ring
      | none => simp [hm, hc] at hline

/-- The loop never reads scrap factors: rewriting every line's
`scrap_factor` leaves the accumulated cost unchanged. -/
theorem bom_cost_loop_scrap_independent (l : List BOMLine) (t : ℚ)
    (f : BOMLine → ℚ) :
    bom_cost_loop t (l.map fun line => { line with scrap_factor := f line }) =
      bom_cost_loop t l := by
  induction l generalizing t with
  | nil => rfl
  | cons line rest ih =>
    cases hm : line.material with
    | some m => simp only [List.map_cons, bom_cost_loop, hm]; exact ih _
    | none =>
      cases hc : line.component with
      | some c => simp only [List.map_cons, bom_cost_loop, hm, hc]; exact ih _
      | none => simp only [List.map_cons, bom_cost_loop, hm, hc]; exact ih _

/-- Claim C7: when every line references exactly one of a Material or a
component Product, `total_cost` is the spec's sum of raw quantity times the
referenced item's unit cost, and it is independent of every line's
scrap factor. -/
theorem bom_total_cost_spec (b : BOM) (f : BOMLine → ℚ)
    (h : ∀ line ∈ b.lines, line.material.isSome ≠ line.component.isSome) :
    b.total_cost = b.spec_total_cost ∧
    BOM.total_cost { b with lines := b.lines.map fun line =>
      { line with scrap_factor := f line } } = b.total_cost := by
  constructor
  · unfold BOM.total_cost BOM.spec_total_cost
    rw [bom_cost_loop_eq_sum _ _ h]
    ring
  · unfold BOM.total_cost
    exact bom_cost_loop_scrap_independent _ _ _

/-- Concrete BOM realizing the spec's example (spec 8.8): one line with a
Material of unit_cost 50 and quantity 2, one line with a component Product
of cost 25 and quantity 4; nonzero scrap factors on both lines. -/
def example_bom : BOM :=
  { bom_number := "BOM-1"
    product :=
      { product_number := "FIN-1", price := 400, cost := 200, min_stock := 5,
        max_stock := 50, active := true }
    version := "1.0"
    active := true
    lines :=
      [ { line_number := 1, material := some { material_code := "MAT-1", unit_cost := 50 },
          component := none, quantity := 2, scrap_factor := 7 },
        { line_number := 2, material := none,
          component := some
            { product_number := "CMP-1", price := 40, cost := 25, min_stock := 0,
              max_stock := 0, active := true },
          quantity := 4, scrap_factor := 3 } ] }

/-- Witness for claim C7 at the spec's example: the implemented total cost
and the spec's sum agree and evaluate to 2*50 + 4*25 = 200. -/
theorem bom_total_cost_spec_witness :
    example_bom.total_cost = example_bom.spec_total_cost ∧
    example_bom.total_cost = 200 := by
  refine ⟨(bom_total_cost_spec example_bom (fun _ => 0) (by decide)).1, ?_⟩
  norm_num [example_bom, BOM.total_cost, bom_cost_loop]

/-! ## Audit log (core/models.py, class LogData; core/signals.py) -/

/-- Audit log row (core/models.py lines 166-215).  `timestamp` is the
server-assigned creation instant (auto_now_add). -/
structure LogData where
  user : Option String
  action_type : String
  model_name : Option String
  description : String
  timestamp : ℚ
deriving DecidableEq, Repr

/-- The model classes that can be the sender of a Django save / delete
signal in this code base, as far as the claims are concerned. -/
inductive SenderModel
  | Product
  | PurchaseOrder
  | SalesOrder
  | Invoice
  | WorkOrder
  | ProductionLog
  | QualityCheck
  | Material
  | BOM
  | Inventory
  | StockMovement
  | PurchaseRequest
  | Employee
  | UserProfile
  | PurchaseOrderLine
  | SalesOrderLine
deriving DecidableEq, Repr

/-- The human readable model name used for LogData.model_name. -/
def SenderModel.name : SenderModel → String
  | .Product => "Product"
  | .PurchaseOrder => "PurchaseOrder"
  | .SalesOrder => "SalesOrder"
  | .Invoice => "Invoice"
  | .WorkOrder => "WorkOrder"
  | .ProductionLog => "ProductionLog"
  | .QualityCheck => "QualityCheck"
  | .Material => "Material"
  | .BOM => "BOM"
  | .Inventory => "Inventory"
  | .StockMovement => "StockMovement"
  | .PurchaseRequest => "PurchaseRequest"
  | .Employee => "Employee"
  | .UserProfile => "UserProfile"
  | .PurchaseOrderLine => "PurchaseOrderLine"
  | .SalesOrderLine => "SalesOrderLine"

/-- The fixed list registered by register_model_signals (core/signals.py
lines 152-174): each of these models gets a post_save and a post_delete
logging receiver; nothing else gets the generic receivers. -/
def models_to_track : List SenderModel :=
  [.Product, .PurchaseOrder, .SalesOrder, .Invoice, .WorkOrder, .ProductionLog,
   .QualityCheck, .Material, .BOM, .Inventory, .StockMovement, .PurchaseRequest]

/-- All LogData rows appended when a row of model `sender` is saved
(core/signals.py lines 96-137): the dedicated Employee receiver
(lines 96-107), the dedicated UserProfile receiver which skips the initial
creation (lines 110-120), and the generic receiver registered for the
models in `models_to_track` (lines 127-137).  `label` stands for
str(instance) resp. the dedicated receivers' own description text;
`created` is the post_save created flag. -/
def post_save_logs (now : ℚ) (sender : SenderModel) (label : String)
    (created : Bool) : List LogData :=
  (if sender = SenderModel.Employee then
    [{ user := none, action_type := if created then "create" else "update",
       model_name := some "Employee",
       description := "Employee " ++ label ++ (if created then " created" else " updated"),
       timestamp := now }]
  else []) ++
  (if sender = SenderModel.UserProfile ∧ created = false then
    [{ user := none, action_type := "update", model_name := some "UserProfile",
       description := "User profile updated for " ++ label, timestamp := now }]
  else []) ++
  (if sender ∈ models_to_track then
    [{ user := none, action_type := if created then "create" else "update",
       model_name := some sender.name,
       description := sender.name ++ " " ++ label ++
         (if created then " created" else " updated"),
       timestamp := now }]
  else [])

/-- All LogData rows appended when a row of model `sender` is deleted
(core/signals.py lines 139-148): only the generic post_delete receiver
exists, registered for the models in `models_to_track`. -/
def post_delete_logs (now : ℚ) (sender : SenderModel) (label : String) :
    List LogData :=
  if sender ∈ models_to_track then
    [{ user := none, action_type := "delete", model_name := some sender.name,
       description := sender.name ++ " " ++ label ++ " deleted",
       timestamp := now }]
  else []

/-- Claim C6: creating, updating and deleting a Product each append exactly
one LogData row, with action_type create / update / delete respectively and
model_name "Product", while deleting a PurchaseOrderLine alone appends
none. -/
theorem product_audit_logging (now : ℚ) (label : String) :
    ((post_save_logs now SenderModel.Product label true).map fun l =>
        (l.action_type, l.model_name)) = [("create", some "Product")] ∧
    ((post_save_logs now SenderModel.Product label false).map fun l =>
        (l.action_type, l.model_name)) = [("update", some "Product")] ∧
    ((post_delete_logs now SenderModel.Product label).map fun l =>
        (l.action_type, l.model_name)) = [("delete", some "Product")] ∧
    post_delete_logs now SenderModel.PurchaseOrderLine label = [] := by
  refine ⟨?_, ?_, ?_, ?_⟩ <;>
    simp [post_save_logs, post_delete_logs, models_to_track, SenderModel.name]

/-! ## LogData console screen (core/admin.py, class LogDataAdmin) -/

/-- The authenticated staff request as seen by the admin permission
checks; `has_delete_perm` stands for the per-model delete permission of
the logged-in user. -/
structure AdminRequest where
  is_superuser : Bool
  has_delete_perm : Bool
deriving DecidableEq, Repr

/-- Django's User.has_perm: a superuser has every permission. -/
def AdminRequest.user_has_perm (r : AdminRequest) : Bool :=
  r.is_superuser || r.has_delete_perm

/-- LogDataAdmin.has_add_permission (core/admin.py lines 132-133):
always returns False. -/
def LogDataAdmin.has_add_permission (_ : AdminRequest) : Bool := false

/-- LogDataAdmin.has_change_permission (core/admin.py lines 135-136):
always returns False; in addition every field of the screen is listed in
readonly_fields (lines 128-129). -/
def LogDataAdmin.has_change_permission (_ : AdminRequest) : Bool := false

/-- LogDataAdmin does not override has_delete_permission, so the inherited
ModelAdmin default applies: the user's own delete permission on the model
decides. -/
def LogDataAdmin.has_delete_permission (r : AdminRequest) : Bool :=
  r.user_has_perm

/-- Reads are ordered newest first: LogData.Meta.ordering is
['-timestamp'] (core/models.py line 210). -/
def log_newest_first (a b : LogData) : Prop := b.timestamp ≤ a.timestamp

instance : DecidableRel log_newest_first :=
  fun a b => inferInstanceAs (Decidable (b.timestamp ≤ a.timestamp))

instance : IsTotal LogData log_newest_first :=
  ⟨fun a b => le_total b.timestamp a.timestamp⟩

instance : IsTrans LogData log_newest_first :=
  ⟨fun _ _ _ hab hbc => le_trans hbc hab⟩

/-- A read of the LogData table under the declared Meta ordering. -/
def logdata_read (logs : List LogData) : List LogData :=
  logs.insertionSort log_newest_first

/-- Claim C4 (corrected form): the console forbids adding and modifying
LogData rows, for every request, and reads return the stored rows ordered
newest first; deleting is not forbidden (the inherited default applies). -/
theorem logdata_add_change_blocked_and_ordered (r : AdminRequest)
    (logs : List LogData) :
    LogDataAdmin.has_add_permission r = false ∧
    LogDataAdmin.has_change_permission r = false ∧
    (logdata_read logs).Sorted log_newest_first ∧
    (logdata_read logs).Perm logs :=
  ⟨rfl, rfl, List.sorted_insertionSort log_newest_first logs,
    List.perm_insertionSort log_newest_first logs⟩

/-- Counterexample to claim C4 as stated: for a superuser request the
console's delete permission check on LogData answers true (the admin class
overrides add and change permissions but not delete), so a console
operation can delete an existing LogData row. -/
theorem logdata_delete_not_blocked :
    LogDataAdmin.has_delete_permission
      { is_superuser := true, has_delete_perm := false } = true := rfl

/-! ## Manufacturing execution (mes/models.py, mes/admin.py) -/

/-- WorkOrder status enumeration (mes/models.py lines 98-105). -/
inductive WOStatus
  | pending
  | ready
  | in_progress
  | paused
  | completed
  | cancelled
deriving DecidableEq, Repr

/-- Manufacturing work order (mes/models.py, class WorkOrder).
`planned_start` is non-nullable (default now); the other schedule fields
are nullable. -/
structure WorkOrder where
  id : ℕ
  wo_number : String
  planned_quantity : ℚ
  produced_quantity : ℚ
  rejected_quantity : ℚ
  planned_start : ℚ
  planned_end : Option ℚ
  actual_start : Option ℚ
  actual_end : Option ℚ
  status : WOStatus
deriving DecidableEq, Repr

/-- WorkOrder.completion_rate (mes/models.py lines 163-168). -/
def WorkOrder.completion_rate (wo : WorkOrder) : ℚ :=
  if wo.planned_quantity > 0 then
    wo.produced_quantity / wo.planned_quantity * 100
  else 0

/-- WorkOrder.efficiency (mes/models.py lines 170-178):
requires actual_start, actual_end, planned_end, planned_start all set
(planned_start always is) and actual duration > 0; otherwise the value is
None. -/
def WorkOrder.efficiency (wo : WorkOrder) : Option ℚ :=
  match wo.actual_start, wo.actual_end, wo.planned_end with
  | some a0, some a1, some p1 =>
    let planned_duration := p1 - wo.planned_start
    let actual_duration := a1 - a0
    if actual_duration > 0 then some (planned_duration / actual_duration * 100)
    else none
  | _, _, _ => none

/-- ProductionLog action enumeration (mes/models.py lines 190-197). -/
inductive PLAction
  | start
  | stop
  | pause
  | resume
  | record_output
  | record_reject
deriving DecidableEq, Repr

/-- Production activity log row (mes/models.py, class ProductionLog). -/
structure ProductionLog where
  work_order_id : ℕ
  operator : Option ℕ
  action_type : PLAction
  timestamp : ℚ
deriving DecidableEq, Repr

/-- The state touched by a work-order transition endpoint: the work order
row and the ProductionLog table (in insertion order). -/
structure MesState where
  work_order : WorkOrder
  logs : List ProductionLog
deriving DecidableEq, Repr

/-- WorkOrderAdmin.start_work_order (mes/admin.py lines 230-245): fetch the
work order, unconditionally set status to in_progress and actual_start to
now, save, then create one ProductionLog with action start.  `op` is the
requesting account's linked employee if any. -/
def start_work_order (now : ℚ) (op : Option ℕ) (s : MesState) : MesState :=
  let wo := { s.work_order with
    status := WOStatus.in_progress, actual_start := some now }
  { work_order := wo
    logs := s.logs ++
      [{ work_order_id := wo.id, operator := op, action_type := PLAction.start,
         timestamp := now }] }

/-- WorkOrderAdmin.stop_work_order (mes/admin.py lines 247-262). -/
def stop_work_order (now : ℚ) (op : Option ℕ) (s : MesState) : MesState :=
  let wo := { s.work_order with
    status := WOStatus.completed, actual_end := some now }
  { work_order := wo
    logs := s.logs ++
      [{ work_order_id := wo.id, operator := op, action_type := PLAction.stop,
         timestamp := now }] }

/-- WorkOrderAdmin.pause_work_order (mes/admin.py lines 264-277):
set status to paused, save, append one ProductionLog with action pause. -/
def pause_work_order (now : ℚ) (op : Option ℕ) (s : MesState) : MesState :=
  let wo := { s.work_order with status := WOStatus.paused }
  { work_order := wo
    logs := s.logs ++
      [{ work_order_id := wo.id, operator := op, action_type := PLAction.pause,
         timestamp := now }] }

/-- WorkOrderAdmin.resume_work_order (mes/admin.py lines 279-292):
set status to in_progress, save, append one ProductionLog with action
resume. -/
def resume_work_order (now : ℚ) (op : Option ℕ) (s : MesState) : MesState :=
  let wo := { s.work_order with status := WOStatus.in_progress }
  { work_order := wo
    logs := s.logs ++
      [{ work_order_id := wo.id, operator := op, action_type := PLAction.resume,
         timestamp := now }] }

/-- A completed work order, the failing input for claim C1: its status is
not ready, so per the spec the Start endpoint must reject the request. -/
def completed_work_order : WorkOrder :=
  { id := 7, wo_number := "WO-7", planned_quantity := 10,
    produced_quantity := 10, rejected_quantity := 0, planned_start := 0,
    planned_end := some 50, actual_start := some 0, actual_end := some 60,
    status := WOStatus.completed }

/-- Claim C1, behavior of the code at the failing input: the Start endpoint
(mes/admin.py lines 230-245) performs no status check, so invoked on a
completed work order it still flips the status to in_progress, overwrites
actual_start with now, and appends a start ProductionLog — instead of the
rejection with no side effect that the spec requires.  (The status = ready
gate exists only in the HTML button rendering, mes/admin.py lines
188-217.) -/
theorem start_on_completed_not_rejected :
    (start_work_order 500 none
      { work_order := completed_work_order, logs := [] }).work_order.status =
        WOStatus.in_progress ∧
    (start_work_order 500 none
      { work_order := completed_work_order, logs := [] }).work_order.actual_start =
        some 500 ∧
    ((start_work_order 500 none
      { work_order := completed_work_order, logs := [] }).logs.map fun l =>
        l.action_type) = [PLAction.start] := ⟨rfl, rfl, rfl⟩

/-- Claim C10: Pause and Resume touch only the status field (paused resp.
in_progress) and append exactly one ProductionLog with the matching action;
all quantities and all four schedule fields are untouched. -/
theorem pause_resume_frame (now : ℚ) (op : Option ℕ) (s : MesState) :
    ((pause_work_order now op s).work_order.status = WOStatus.paused ∧
      (pause_work_order now op s).work_order.planned_quantity =
        s.work_order.planned_quantity ∧
      (pause_work_order now op s).work_order.produced_quantity =
        s.work_order.produced_quantity ∧
      (pause_work_order now op s).work_order.rejected_quantity =
        s.work_order.rejected_quantity ∧
      (pause_work_order now op s).work_order.actual_start =
        s.work_order.actual_start ∧
      (pause_work_order now op s).work_order.actual_end =
        s.work_order.actual_end ∧
      (pause_work_order now op s).work_order.planned_start =
        s.work_order.planned_start ∧
      (pause_work_order now op s).work_order.planned_end =
        s.work_order.planned_end ∧
      (pause_work_order now op s).logs = s.logs ++
        [{ work_order_id := s.work_order.id, operator := op,
           action_type := PLAction.pause, timestamp := now }]) ∧
    ((resume_work_order now op s).work_order.status = WOStatus.in_progress ∧
      (resume_work_order now op s).work_order.planned_quantity =
        s.work_order.planned_quantity ∧
      (resume_work_order now op s).work_order.produced_quantity =
        s.work_order.produced_quantity ∧
      (resume_work_order now op s).work_order.rejected_quantity =
        s.work_order.rejected_quantity ∧
      (resume_work_order now op s).work_order.actual_start =
        s.work_order.actual_start ∧
      (resume_work_order now op s).work_order.actual_end =
        s.work_order.actual_end ∧
      (resume_work_order now op s).work_order.planned_start =
        s.work_order.planned_start ∧
      (resume_work_order now op s).work_order.planned_end =
        s.work_order.planned_end ∧
      (resume_work_order now op s).logs = s.logs ++
        [{ work_order_id := s.work_order.id, operator := op,
           action_type := PLAction.resume, timestamp := now }]) :=
  ⟨⟨rfl, rfl, rfl, rfl, rfl, rfl, rfl, rfl, rfl⟩,
   ⟨rfl, rfl, rfl, rfl, rfl, rfl, rfl, rfl, rfl⟩⟩

/-! ## Dashboard KPIs (dashboard/views.py, get_kpis) -/

/-- Round to the nearest integer, ties to even, as Python's built-in
round on an exact value. -/
def roundHalfEven (q : ℚ) : ℤ :=
  let f : ℤ := ⌊q⌋
  let r : ℚ := q - f
  if r < 1 / 2 then f
  else if 1 / 2 < r then f + 1
  else if f % 2 = 0 then f else f + 1

/-- Python's round(x, 1). -/
def roundTo1 (q : ℚ) : ℚ := (roundHalfEven (10 * q) : ℚ) / 10

theorem roundTo1_zero : roundTo1 0 = 0 := by
  norm_num [roundTo1, roundHalfEven]

/-- The queryset WorkOrder.objects.filter(planned_start__gte=month_start)
.filter(status='completed') from get_kpis (dashboard/views.py lines
37-38). -/
def completed_this_month (month_start : ℚ) (wos : List WorkOrder) :
    List WorkOrder :=
  (wos.filter fun wo => decide (month_start ≤ wo.planned_start)).filter
    fun wo => decide (wo.status = WOStatus.completed)

/-- One iteration of the OEE loop of get_kpis (dashboard/views.py lines
46-51): `if wo.efficiency:` adds the value to the running sum and bumps the
count; by Python truthiness this happens exactly when the efficiency is
defined and nonzero. -/
def oee_step (acc : ℚ × ℕ) (wo : WorkOrder) : ℚ × ℕ :=
  match wo.efficiency with
  | some e => if e ≠ 0 then (acc.1 + e, acc.2 + 1) else acc
  | none => acc

/-- The `oee` entry of get_kpis (dashboard/views.py lines 43-52 and 73):
oee = 0; if completed work orders exist, loop over them accumulating the
truthy efficiencies, then average if the count is positive; finally
round(oee, 1). -/
def get_kpis_oee (month_start : ℚ) (wos : List WorkOrder) : ℚ :=
  let completed_wo := completed_this_month month_start wos
  let oee : ℚ :=
    if completed_wo.isEmpty then 0
    else
      let acc := completed_wo.foldl oee_step (0, 0)
      if 0 < acc.2 then acc.1 / (acc.2 : ℚ) else 0
  roundTo1 oee

/-- The efficiencies that the loop of get_kpis actually averages: those
that are defined and nonzero. -/
def truthy_efficiencies (wos : List WorkOrder) : List ℚ :=
  (wos.filterMap WorkOrder.efficiency).filter fun e => decide (e ≠ 0)

/-- The OEE value the claim C3 describes, taken from the spec's words: the
average of efficiency over completed WorkOrders of the month that have a
defined efficiency, rounded to 1 decimal, 0 when there is none. -/
def oee_spec_claimed (month_start : ℚ) (wos : List WorkOrder) : ℚ :=
  let effs := (completed_this_month month_start wos).filterMap WorkOrder.efficiency
  if effs.isEmpty then 0 else roundTo1 (effs.sum / (effs.length : ℚ))

/-- The amended OEE description: as claimed, but a work order whose defined
efficiency is exactly zero is also excluded from the average. -/
def oee_spec_amended (month_start : ℚ) (wos : List WorkOrder) : ℚ :=
  let effs := truthy_efficiencies (completed_this_month month_start wos)
  if effs.isEmpty then 0 else roundTo1 (effs.sum / (effs.length : ℚ))

theorem truthy_efficiencies_cons (wo : WorkOrder) (tl : List WorkOrder) :
    truthy_efficiencies (wo :: tl) =
      match wo.efficiency with
      | some e =>
        if e ≠ 0 then e :: truthy_efficiencies tl else truthy_efficiencies tl
      | none => truthy_efficiencies tl := by
  unfold truthy_efficiencies
  cases he : wo.efficiency with
  | none => simp [List.filterMap_cons, he]
  | some e =>
    by_cases hz : e = 0
    · simp [List.filterMap_cons, he, hz, List.filter_cons]
    · simp [List.filterMap_cons, he, hz, List.filter_cons]

/-- The accumulation loop of get_kpis computes the sum and the count of the
defined-and-nonzero efficiencies. -/
theorem foldl_oee_step (l : List WorkOrder) (s : ℚ) (c : ℕ) :
    l.foldl oee_step (s, c) =
      (s + (truthy_efficiencies l).sum, c + (truthy_efficiencies l).length) := by
  induction l generalizing s c with
  | nil => simp [truthy_efficiencies]
  | cons wo tl ih =>
    rw [List.foldl_cons, truthy_efficiencies_cons]
    cases he : wo.efficiency with
    | none =>
      simp only [oee_step, he]
      exact ih s c
    | some e =>
      by_cases hz : e = 0
      · simp only [oee_step, he, hz, ne_eq, not_true_eq_false, if_false]
        exact ih s c
      · simp only [oee_step, he, hz, ne_eq, not_false_eq_true, if_true]
        rw [ih]
        refine Prod.ext ?_ ?_ <;> simp <;> ring

/-- Claim C3 (corrected form): the dashboard KPI oee is the rounded average
of the defined AND nonzero efficiencies of the month's completed work
orders, and 0 when no such work order exists; work orders without a defined
efficiency (in particular, completed ones missing actual_end) are excluded,
and so are work orders whose defined efficiency is exactly 0. -/
theorem dashboard_oee_amended (month_start : ℚ) (wos : List WorkOrder) :
    get_kpis_oee month_start wos = oee_spec_amended month_start wos := by
  have hfold := foldl_oee_step (completed_this_month month_start wos) 0 0
  simp only [zero_add] at hfold
  simp only [get_kpis_oee, oee_spec_amended, hfold]
  by_cases hLe : (completed_this_month month_start wos).isEmpty
  · have hnil : completed_this_month month_start wos = [] :=
      List.isEmpty_iff.mp hLe
    simp [hnil, truthy_efficiencies, roundTo1_zero]
  · by_cases hlen :
        (truthy_efficiencies (completed_this_month month_start wos)).length = 0
    · have hnil :
          truthy_efficiencies (completed_this_month month_start wos) = [] :=
        List.length_eq_zero.mp hlen
      simp [hLe, hnil, roundTo1_zero]
    · have hne :
          ¬(truthy_efficiencies (completed_this_month month_start wos)).isEmpty = true := by
        rw [List.isEmpty_iff_length_eq_zero]
        exact hlen
      simp [hLe, hne, Nat.pos_of_ne_zero hlen]

/-- A completed work order of the month with efficiency 100: planned and
actual duration both 100 seconds. -/
def wo_eff_hundred : WorkOrder :=
  { id := 1, wo_number := "WO-A", planned_quantity := 100,
    produced_quantity := 100, rejected_quantity := 0, planned_start := 0,
    planned_end := some 100, actual_start := some 0, actual_end := some 100,
    status := WOStatus.completed }

/-- A completed work order of the month whose efficiency is defined and
exactly 0: all four schedule fields set, actual duration 50 > 0, planned
duration 0. -/
def wo_eff_zero : WorkOrder :=
  { id := 2, wo_number := "WO-B", planned_quantity := 50,
    produced_quantity := 50, rejected_quantity := 0, planned_start := 10,
    planned_end := some 10, actual_start := some 10, actual_end := some 60,
    status := WOStatus.completed }

/-- Counterexample to claim C3 as stated: with these two completed work
orders of the month, both with a defined efficiency (100 and 0), the claim
predicts oee = (100 + 0) / 2 = 50.0, but get_kpis skips the zero
efficiency (Python truthiness of `if wo.efficiency:`) and reports 100.0. -/
theorem dashboard_oee_counterexample :
    wo_eff_zero.efficiency = some 0 ∧
    get_kpis_oee 0 [wo_eff_hundred, wo_eff_zero] = 100 ∧
    oee_spec_claimed 0 [wo_eff_hundred, wo_eff_zero] = 50 ∧
    get_kpis_oee 0 [wo_eff_hundred, wo_eff_zero] ≠
      oee_spec_claimed 0 [wo_eff_hundred, wo_eff_zero] := by
  have hz : wo_eff_zero.efficiency = some 0 := by
    norm_num [wo_eff_zero, WorkOrder.efficiency]
  have hh : wo_eff_hundred.efficiency = some 100 := by
    norm_num [wo_eff_hundred, WorkOrder.efficiency]
  have hc : completed_this_month 0 [wo_eff_hundred, wo_eff_zero] =
      [wo_eff_hundred, wo_eff_zero] := by
    norm_num [completed_this_month, List.filter, wo_eff_hundred, wo_eff_zero]
  have htruthy : truthy_efficiencies [wo_eff_hundred, wo_eff_zero] = [100] := by
    norm_num [truthy_efficiencies, List.filterMap, List.filter, hz, hh]
  have h100 : roundTo1 100 = 100 := by norm_num [roundTo1, roundHalfEven]
  have h50 : roundTo1 50 = 50 := by norm_num [roundTo1, roundHalfEven]
  have hget : get_kpis_oee 0 [wo_eff_hundred, wo_eff_zero] = 100 := by
    simp only [get_kpis_oee, hc, foldl_oee_step, htruthy]
    norm_num [h100]
  have hclaim : oee_spec_claimed 0 [wo_eff_hundred, wo_eff_zero] = 50 := by
    simp only [oee_spec_claimed, hc]
    norm_num [List.filterMap, hz, hh, h50]
  exact ⟨hz, hget, hclaim, by rw [hget, hclaim]; norm_num⟩
